import Mathlib

/-!
# NefritVPN — verification of the frozen claims

Shallow embedding of the NefritVPN master/worker credential-synchronization
core (src/master/main.py, src/worker/main.py, src/main.py).

Conventions of the embedding:
* SQLite tables become Lean lists of structure rows, ordered by rowid
  (a freshly inserted row is appended at the end).
* Timestamps are integers counted in days; `timedelta(days=d)` is `+ d`.
* Randomly generated values (`uuid.uuid4()`, `secrets.token_urlsafe`,
  `datetime.now()`) are passed to the embedded functions as explicit
  arguments.
* A missing JSON field (`data.get(...)` returning `None`) is `Option.none`.
-/

/-! ## Worker node (src/worker/main.py) -/

/-- One row of the worker's `users` table
(`user_uuid TEXT UNIQUE NOT NULL, path TEXT NOT NULL, added_at TIMESTAMP`);
the `id` rowid column is represented by the row's position in the list. -/
structure WRow where
  user_uuid : String
  path : String
  added_at : Int
  deriving Repr, DecidableEq

/-- The worker's local mirror: the full `users` table, in rowid order. -/
abbrev Mirror := List WRow

/-- `get_all_users` (worker): `SELECT user_uuid, path FROM users`. -/
def worker_get_all_users (m : Mirror) : List (String × String) :=
  m.map fun r => (r.user_uuid, r.path)

/-- `add_user` (worker/main.py:67): `INSERT OR REPLACE INTO users
(user_uuid, path, added_at) VALUES (?, ?, ?)` — any row with the same
`user_uuid` is deleted and the new row inserted with a fresh rowid
(appended), `added_at` set to the current time `t`. -/
def worker_add_user (m : Mirror) (u p : String) (t : Int) : Mirror :=
  (m.filter fun r => ¬ (r.user_uuid = u)) ++ [⟨u, p, t⟩]

/-- `remove_user` (worker/main.py:83): select by `user_uuid`; if a row
exists delete it and return `true`, else leave the table alone and
return `false`. -/
def worker_remove_user (m : Mirror) (u : String) : Mirror × Bool :=
  if (m.find? fun r => r.user_uuid = u).isSome then
    ((m.filter fun r => ¬ (r.user_uuid = u)), true)
  else
    (m, false)

/-- The `if not clients: clients.append(dummy)` step shared by both
`generate_xray_config` implementations (worker/main.py:113,
master/main.py:613, main.py:216): an empty client list is replaced by a
single synthetic placeholder entry. -/
def clientsOf (ids : List String) (dummy : String) : List String :=
  if ids.isEmpty then [dummy] else ids

/-- Client ids emitted by the worker's `generate_xray_config`
(worker/main.py:105): one entry per mirror row, placeholder if empty. -/
def workerGenerateClients (m : Mirror) (dummy : String) : List String :=
  clientsOf ((worker_get_all_users m).map Prod.fst) dummy

/-- Shape of the worker's JSON responses: HTTP status plus the `success`
and `total_users` fields when present. -/
structure WResp where
  status : Nat
  success : Option Bool
  total_users : Option Nat
  deriving Repr, DecidableEq

/-- Result of running a worker handler: the response, the mirror
afterwards, and how many `restart_xray` calls were triggered. -/
structure WResult where
  resp : WResp
  mirror : Mirror
  restarts : Nat
  deriving Repr, DecidableEq

/-- `handle_add_user` (worker/main.py:242) on an already-parsed JSON
body: secret mismatch → 401; missing/empty `uuid` → 400; otherwise
upsert, restart, and answer `{success: true, total_users}`.
(The 500 branch is unreachable here: `add_user` fails only on a
database exception.) -/
def handle_add_user (server_secret : String) (secret : Option String)
    (u : Option String) (p : String) (t : Int) (m : Mirror) : WResult :=
  if secret = some server_secret then
    match u with
    | none => ⟨⟨400, none, none⟩, m, 0⟩
    | some u' =>
        if u' = "" then ⟨⟨400, none, none⟩, m, 0⟩
        else
          let m' := worker_add_user m u' p t
          ⟨⟨200, some true, some m'.length⟩, m', 1⟩
  else ⟨⟨401, none, none⟩, m, 0⟩

/-- `handle_remove_user` (worker/main.py:276): secret mismatch → 401;
missing/empty `uuid` → 400; otherwise delete if present, restart
unconditionally, and answer `{success, total_users}` with status 200 in
both the found and the not-found case. -/
def handle_remove_user (server_secret : String) (secret : Option String)
    (u : Option String) (m : Mirror) : WResult :=
  if secret = some server_secret then
    match u with
    | none => ⟨⟨400, none, none⟩, m, 0⟩
    | some u' =>
        if u' = "" then ⟨⟨400, none, none⟩, m, 0⟩
        else
          let res := worker_remove_user m u'
          ⟨⟨200, some res.2, some res.1.length⟩, res.1, 1⟩
  else ⟨⟨401, none, none⟩, m, 0⟩

/-- One element of the `users` list posted to `/api/sync`. -/
structure SyncEntry where
  uuid : Option String
  path : String
  deriving Repr, DecidableEq

/-- Rows inserted by `handle_sync`: entries whose `uuid` is present and
non-empty (Python truthiness of `if user_uuid:`), all stamped with the
current time. -/
def syncRows (users_list : List SyncEntry) (t : Int) : Mirror :=
  users_list.filterMap fun e =>
    match e.uuid with
    | none => none
    | some u => if u = "" then none else some ⟨u, e.path, t⟩

/-- The database effect of `handle_sync` (worker/main.py:321-333):
`DELETE FROM users` then a plain `INSERT` of each entry inside one
connection. A duplicate `user_uuid` in the input violates the UNIQUE
constraint, the exception aborts the handler before `commit` and the
transaction rolls back (mirror unchanged, `false`); otherwise the
mirror is replaced wholesale (`true`). -/
def sync_replace (users_list : List SyncEntry) (t : Int) (m : Mirror) :
    Mirror × Bool :=
  let rows := syncRows users_list t
  if (rows.map fun r => r.user_uuid).Nodup then (rows, true) else (m, false)

/-- `handle_sync` (worker/main.py:307), continued: the authenticated
path runs `sync_replace` and answers 200 with a restart when it
commits, 500 with no restart when it aborts. -/
def handle_sync (server_secret : String) (secret : Option String)
    (users_list : List SyncEntry) (t : Int) (m : Mirror) : WResult :=
  if secret = some server_secret then
    let res := sync_replace users_list t m
    if res.2 then ⟨⟨200, some true, some res.1.length⟩, res.1, 1⟩
    else ⟨⟨500, none, none⟩, m, 0⟩
  else ⟨⟨401, none, none⟩, m, 0⟩

/-- The multiset of `user_uuid`s stored in a mirror. -/
def mirrorUuids (m : Mirror) : List String :=
  m.map fun r => r.user_uuid

/-- One worker-mirror mutation, as performed by the three API handlers. -/
inductive WOp where
  | add (u p : String) (t : Int)
  | remove (u : String)
  | sync (entries : List SyncEntry) (t : Int)

/-- The mirror after one handler's database effect (`add_user`,
`remove_user`, or the `handle_sync` replacement). -/
def applyWOp (m : Mirror) : WOp → Mirror
  | .add u p t => worker_add_user m u p t
  | .remove u => (worker_remove_user m u).1
  | .sync entries t => (sync_replace entries t m).1


/-! ## Master node (src/master/main.py, src/main.py) -/

/-- One row of the master's `users` table (src/master/main.py:96):
`user_id INTEGER UNIQUE, username TEXT, user_uuid TEXT UNIQUE,
path TEXT UNIQUE, key_id INTEGER, expires_at TIMESTAMP,
is_active BOOLEAN DEFAULT 1`. The `created_at` and `referred_by`
columns are never read by the embedded operations and are omitted. -/
structure MUser where
  user_id : Nat
  username : String
  user_uuid : String
  path : String
  key_id : Option Nat
  expires_at : Option Int
  is_active : Bool
  deriving Repr, DecidableEq

/-- One row of the master's `keys` table (src/master/main.py:113):
`id, key TEXT UNIQUE, days INTEGER, is_used BOOLEAN DEFAULT 0, used_by,
used_by_username, activated_at, expires_at, is_revoked BOOLEAN DEFAULT 0`
(`created_at` omitted, never read by the embedded operations). -/
structure MKey where
  id : Nat
  key : String
  days : Option Nat
  is_used : Bool
  used_by : Option Nat
  used_by_username : Option String
  activated_at : Option Int
  expires_at : Option Int
  is_revoked : Bool
  deriving Repr, DecidableEq

/-- The Python expression
`(now + timedelta(days=days)).isoformat() if days else None`
(src/master/main.py:414, src/main.py:155): `days` is falsy both when it
is `None` and when it is `0`, so a zero-day duration also yields an
unlimited (`None`) expiry. -/
def pyOptExpiry (now : Int) (days : Option Nat) : Option Int :=
  match days with
  | none => none
  | some d => if d = 0 then none else some (now + (d : Int))

/-- Expiry currently stored for `user_id` in the master's `users`
table: `SELECT expires_at FROM users WHERE user_id = ?` followed by
`user_row[0] if user_row else None`. -/
def userExpiry (users : List MUser) (uid : Nat) : Option Int :=
  (users.find? fun u => u.user_id = uid).bind fun u => u.expires_at

/-- `get_all_users` (src/master/main.py:517):
`SELECT user_uuid, path FROM users WHERE is_active = 1` — note that it
does NOT filter on `expires_at`. -/
def masterGetAllUsers (users : List MUser) : List (String × String) :=
  (users.filter fun u => u.is_active).map fun u => (u.user_uuid, u.path)

/-- Client ids emitted by the master's `generate_xray_config`
(src/master/main.py:609): one per `is_active = 1` row, placeholder if
none. -/
def masterGenerateClients (users : List MUser) (dummy : String) : List String :=
  clientsOf ((masterGetAllUsers users).map Prod.fst) dummy

/-- Whether a credential row is expired at time `now` (a `NULL`
`expires_at` never expires). -/
def credExpired (now : Int) (u : MUser) : Prop :=
  match u.expires_at with
  | none => False
  | some e => e < now

instance (now : Int) (u : MUser) : Decidable (credExpired now u) := by
  unfold credExpired
  exact match u.expires_at with
  | none => inferInstanceAs (Decidable False)
  | some e => inferInstanceAs (Decidable (e < now))

/-- `add_days_to_user` (src/master/main.py:272): look the user up by
`user_id`; absent → `false`; unlimited (`expires_at IS NULL`) → `true`
with no change; otherwise extend from
`base = old_exp if old_exp > now else now` by `days` days and set
`is_active = 1`. -/
def add_days_to_user (users : List MUser) (uid : Nat) (days : Nat)
    (now : Int) : List MUser × Bool :=
  match users.find? fun u => u.user_id = uid with
  | none => (users, false)
  | some row =>
      match row.expires_at with
      | none => (users, true)
      | some e =>
          let base := if e > now then e else now
          ((users.map fun u =>
              if u.user_id = uid then
                { u with expires_at := some (base + (days : Int)),
                         is_active := true }
              else u),
           true)

/-- `create_subscription` (src/master/main.py:364). With an existing
row for `user_id`: if it is not expired (`fromisoformat(old) <= now` is
false), keep its `path`/`uuid` and set
`expires_at := None if old is None else None if days is None else
old + days`, `is_active := 1`; if it is expired, delete it and fall
through to creation. Creation inserts a fresh row with the supplied
fresh uuid and path and expiry `pyOptExpiry now days`. Returns the
updated table plus the returned `(path, uuid)` pair. -/
def create_subscription (users : List MUser) (uid : Nat) (uname : String)
    (days : Option Nat) (now : Int) (freshUuid freshPath : String) :
    List MUser × String × String :=
  let fresh : MUser :=
    ⟨uid, uname, freshUuid, freshPath, none, pyOptExpiry now days, true⟩
  match users.find? fun u => u.user_id = uid with
  | some existing =>
      let is_expired : Bool :=
        match existing.expires_at with
        | some e => e ≤ now
        | none => false
      if is_expired then
        ((users.filter fun u => ¬ (u.user_id = uid)) ++ [fresh],
         freshPath, freshUuid)
      else
        let new_expires : Option Int :=
          match existing.expires_at, days with
          | none, _ => none
          | some _, none => none
          | some e, some d => some (e + (d : Int))
        ((users.map fun u =>
            if u.user_id = uid then
              { u with expires_at := new_expires, is_active := true }
            else u),
         existing.path, existing.user_uuid)
  | none => (users ++ [fresh], freshPath, freshUuid)

/-- Failure outcomes of key redemption. -/
inductive KeyError where
  | notFound
  | revoked
  | alreadyUsed
  deriving Repr, DecidableEq

/-- `UPDATE keys SET is_used = 1, used_by = ?, used_by_username = ?,
activated_at = ? WHERE key = ?` (src/master/main.py:450). -/
def markKeyUsed (keys : List MKey) (k : String) (uid : Nat)
    (uname : String) (now : Int) : List MKey :=
  keys.map fun r =>
    if r.key = k then
      { r with is_used := true, used_by := some uid,
               used_by_username := some uname, activated_at := some now }
    else r

/-- `activate_key` (src/master/main.py:431): look the key up; missing →
NotFound, `is_revoked` → Revoked, `is_used` → AlreadyUsed, each before
any write. Otherwise mark the key used (critical section one), run
`create_subscription`, then copy the user's actual expiry onto the key
and the key id onto the user (critical section two). Returns the new
`(keys, users)` state, the path on success, and the error otherwise. -/
def master_activate_key (keys : List MKey) (users : List MUser)
    (k : String) (uid : Nat) (uname : String) (now : Int)
    (freshUuid freshPath : String) :
    (List MKey × List MUser) × Option String × Option KeyError :=
  match keys.find? fun r => r.key = k with
  | none => ((keys, users), none, some .notFound)
  | some row =>
      if row.is_revoked then ((keys, users), none, some .revoked)
      else if row.is_used then ((keys, users), none, some .alreadyUsed)
      else
        let keys1 := markKeyUsed keys k uid uname now
        let res := create_subscription users uid uname row.days now
          freshUuid freshPath
        let actual_expires := userExpiry res.1 uid
        let keys2 := keys1.map fun r =>
          if r.id = row.id then { r with expires_at := actual_expires }
          else r
        let users2 := res.1.map fun u =>
          if u.user_id = uid then { u with key_id := some row.id } else u
        ((keys2, users2), some res.2.1, none)

/-- `activate_key` of the single-node revision (src/main.py:128): same
three failure checks before any write; then, if the caller already has
a subscription, return its existing path with no state change at all;
otherwise insert a user row with path `"u" ++ user_id` and expiry
`pyOptExpiry now days` and mark the key used, all in one transaction. -/
def main_activate_key (keys : List MKey) (users : List MUser)
    (k : String) (uid : Nat) (uname : String) (now : Int)
    (freshUuid : String) :
    (List MKey × List MUser) × Option String × Option KeyError :=
  match keys.find? fun r => r.key = k with
  | none => ((keys, users), none, some .notFound)
  | some row =>
      if row.is_revoked then ((keys, users), none, some .revoked)
      else if row.is_used then ((keys, users), none, some .alreadyUsed)
      else
        match users.find? fun u => u.user_id = uid with
        | some existing => ((keys, users), some existing.path, none)
        | none =>
            let user_path := "u" ++ toString uid
            let expires := pyOptExpiry now row.days
            let users' := users ++
              [⟨uid, uname, freshUuid, user_path, some row.id, expires, true⟩]
            let keys' := keys.map fun r =>
              if r.key = k then
                { r with is_used := true, used_by := some uid,
                         used_by_username := some uname,
                         activated_at := some now, expires_at := expires }
              else r
            ((keys', users'), some user_path, none)

/-- The first critical section of `master_activate_key` in isolation:
the part executed under `db_lock` (src/master/main.py:432-455) that
decides whether a redeeming caller wins the key. Returns the updated
`keys` table and `none` for the winner, `some e` for a loser. -/
def activate_key_crit (keys : List MKey) (k : String) (uid : Nat)
    (uname : String) (now : Int) : List MKey × Option KeyError :=
  match keys.find? fun r => r.key = k with
  | none => (keys, some .notFound)
  | some row =>
      if row.is_revoked then (keys, some .revoked)
      else if row.is_used then (keys, some .alreadyUsed)
      else (markKeyUsed keys k uid uname now, none)

/-- K redemption calls on the same key, serialized by `db_lock`
(src/master/main.py:82): each caller runs `activate_key_crit` in turn
on the state the previous one left. Returns the final `keys` table and
each caller's outcome, in order. -/
def redeemRace (keys : List MKey) (k : String)
    (callers : List (Nat × String)) (now : Int) :
    List MKey × List (Option KeyError) :=
  match callers with
  | [] => (keys, [])
  | c :: rest =>
      let step := activate_key_crit keys k c.1 c.2 now
      let res := redeemRace step.1 k rest now
      (res.1, step.2 :: res.2)

/-! ## Helper lemmas -/

theorem find?_filterNot {α : Type} (p : α → Prop) [DecidablePred p]
    (l : List α) :
    (l.filter fun a => ¬ p a).find? (fun a => p a) = none := by
  rw [List.find?_eq_none]
  intro x hx
  have := List.of_mem_filter hx
  simpa using this

theorem find?_map_update {α : Type} (p : α → Prop) [DecidablePred p]
    (f : α → α) (hf : ∀ a, p a → p (f a)) {l : List α} {row : α}
    (h : l.find? (fun a => p a) = some row) :
    (l.map fun a => if p a then f a else a).find? (fun a => p a) =
      some (f row) := by
  induction l with
  | nil => simp at h
  | cons a t ih =>
      by_cases hp : p a
      · rw [List.find?_cons_of_pos _ (by simpa using hp)] at h
        injection h with h
        subst h
        simp only [List.map_cons, if_pos hp]
        rw [List.find?_cons_of_pos _ (by simpa using hf a hp)]
      · rw [List.find?_cons_of_neg _ (by simpa using hp)] at h
        simp only [List.map_cons, if_neg hp]
        rw [List.find?_cons_of_neg _ (by simpa using hp)]
        exact ih h

theorem mem_mirrorUuids_iff (m : Mirror) (u : String) :
    u ∈ mirrorUuids m ↔ (m.find? fun r => r.user_uuid = u).isSome := by
  simp [mirrorUuids, List.find?_isSome]

theorem clientsOf_ne_nil (ids : List String) (dummy : String) :
    clientsOf ids dummy ≠ [] := by
  by_cases h : ids.isEmpty <;> simp_all [clientsOf, List.isEmpty_iff]

/-! ## Claim theorems -/

/-- C2 counterexample: with the correct shared secret and an identifier
absent from the mirror, `/api/remove_user` answers with HTTP status
200 (carrying `success = false`), not the 404 the claim requires. -/
theorem c2_remove_user_counterexample :
    (handle_remove_user "s" (some "s") (some "u") []).resp.status = 200 ∧
    ¬ (handle_remove_user "s" (some "s") (some "u") []).resp.status = 404 := by
  constructor
  · rfl
  · decide

/-- C2 (amended): on a correct shared secret and a non-empty identifier,
`/api/remove_user` answers status 200 with the `{success, total_users}`
shape in both cases: `success = false` and an unchanged mirror when the
identifier is unknown, `success = true` and the entry deleted when it
is present; a restart is triggered in both cases. -/
theorem c2_remove_user_amended (ss u : String) (m : Mirror) (hu : u ≠ "") :
    (u ∉ mirrorUuids m →
      handle_remove_user ss (some ss) (some u) m =
        ⟨⟨200, some false, some m.length⟩, m, 1⟩) ∧
    (u ∈ mirrorUuids m →
      handle_remove_user ss (some ss) (some u) m =
        ⟨⟨200, some true,
           some ((m.filter fun r => ¬ (r.user_uuid = u)).length)⟩,
         m.filter fun r => ¬ (r.user_uuid = u), 1⟩) := by
  have hiff := mem_mirrorUuids_iff m u
  constructor
  · intro hmem
    have hnone : (m.find? fun r => r.user_uuid = u) = none := by
      cases hfind : m.find? fun r => r.user_uuid = u with
      | none => rfl
      | some r => exact absurd (hiff.mpr (by simp [hfind])) hmem
    simp [handle_remove_user, hu, worker_remove_user, hnone]
  · intro hmem
    have hsome := hiff.mp hmem
    simp [handle_remove_user, hu, worker_remove_user, hsome]

/-- Witness for C2 (amended) at a concrete mirror. -/
theorem c2_remove_user_amended_witness :
    handle_remove_user "s" (some "s") (some "u") [⟨"a", "q", 0⟩] =
      ⟨⟨200, some false, some 1⟩, [⟨"a", "q", 0⟩], 1⟩ :=
  (c2_remove_user_amended "s" "u" [⟨"a", "q", 0⟩] (by decide)).1 (by decide)

/-- C6 counterexample: applying `add("u","p")` twice (the second call at
a later wall-clock time) does not reproduce the one-call mirror state:
`INSERT OR REPLACE` rewrites the row's `added_at` timestamp. -/
theorem c6_idempotent_counterexample :
    worker_add_user (worker_add_user [] "u" "p" 0) "u" "p" 1 ≠
      worker_add_user [] "u" "p" 0 := by decide

/-- C6 (amended): applying `add(id, path)` twice yields the same mirror
state as applying it once at the second call's time (so with equal
timestamps `add` is exactly idempotent); applying `remove(id)` twice
yields exactly the same mirror state as once; each repeated
authenticated handler call triggers exactly one extra restart. -/
theorem c6_idempotent_amended (ss : String) (m : Mirror) (u p : String)
    (t t' : Int) (hu : u ≠ "") :
    worker_add_user (worker_add_user m u p t) u p t' =
      worker_add_user m u p t' ∧
    (worker_remove_user (worker_remove_user m u).1 u).1 =
      (worker_remove_user m u).1 ∧
    (handle_add_user ss (some ss) (some u) p t m).restarts = 1 ∧
    (handle_add_user ss (some ss) (some u) p t'
        (handle_add_user ss (some ss) (some u) p t m).mirror).mirror =
      (handle_add_user ss (some ss) (some u) p t' m).mirror ∧
    (handle_remove_user ss (some ss) (some u)
        (handle_remove_user ss (some ss) (some u) m).mirror).mirror =
      (handle_remove_user ss (some ss) (some u) m).mirror := by
  have hadd : worker_add_user (worker_add_user m u p t) u p t' =
      worker_add_user m u p t' := by
    simp [worker_add_user, List.filter_filter]
  have hrem : (worker_remove_user (worker_remove_user m u).1 u).1 =
      (worker_remove_user m u).1 := by
    by_cases hfind : (m.find? fun r => r.user_uuid = u).isSome
    · have hnone := find?_filterNot (fun r : WRow => r.user_uuid = u) m
      simp [worker_remove_user, hfind, hnone]
    · simp [worker_remove_user, hfind]
  refine ⟨hadd, hrem, by simp [handle_add_user, hu], ?_, ?_⟩
  · simp [handle_add_user, hu, hadd]
  · simp [handle_remove_user, hu, hrem]

/-- Witness for C6 (amended) at a concrete mirror. -/
theorem c6_idempotent_amended_witness :
    worker_add_user (worker_add_user [] "u" "p" 0) "u" "p" 1 =
      worker_add_user [] "u" "p" 1 :=
  (c6_idempotent_amended "s" [] "u" "p" 0 1 (by decide)).1

/-- C7: the generated config never has an empty client list — on an
empty active set it consists of exactly the one synthetic placeholder,
and on a non-empty active set it has exactly one entry per credential
(worker: per mirror row; master: per `is_active = 1` row) and no
placeholder when the placeholder uuid is fresh. -/
theorem c7_placeholder (m : Mirror) (users : List MUser) (dummy : String) :
    workerGenerateClients m dummy ≠ [] ∧
    (m = [] → workerGenerateClients m dummy = [dummy]) ∧
    (m ≠ [] → workerGenerateClients m dummy = mirrorUuids m) ∧
    (m ≠ [] → dummy ∉ mirrorUuids m →
      dummy ∉ workerGenerateClients m dummy) ∧
    masterGenerateClients users dummy ≠ [] ∧
    ((users.filter fun x => x.is_active) = [] →
      masterGenerateClients users dummy = [dummy]) ∧
    ((users.filter fun x => x.is_active) ≠ [] →
      masterGenerateClients users dummy =
        (users.filter fun x => x.is_active).map fun x => x.user_uuid) := by
  have hworker : workerGenerateClients m dummy =
      clientsOf (mirrorUuids m) dummy := by
    simp [workerGenerateClients, worker_get_all_users, mirrorUuids,
      List.map_map, Function.comp_def]
  have hmaster : masterGenerateClients users dummy =
      clientsOf ((users.filter fun x => x.is_active).map
        fun x => x.user_uuid) dummy := by
    simp [masterGenerateClients, masterGetAllUsers, List.map_map,
      Function.comp_def]
  refine ⟨?_, ?_, ?_, ?_, ?_, ?_, ?_⟩
  · rw [hworker]; exact clientsOf_ne_nil _ _
  · intro h; subst h; rfl
  · intro h
    rw [hworker]
    have : (mirrorUuids m).isEmpty = false := by
      cases m with
      | nil => exact absurd rfl h
      | cons a l => rfl
    simp [clientsOf, this]
  · intro h hd
    rw [hworker]
    have : (mirrorUuids m).isEmpty = false := by
      cases m with
      | nil => exact absurd rfl h
      | cons a l => rfl
    simpa [clientsOf, this] using hd
  · rw [hmaster]; exact clientsOf_ne_nil _ _
  · intro h; rw [hmaster, h]; rfl
  · intro h
    rw [hmaster]
    have : ((users.filter fun x => x.is_active).map
        fun x => x.user_uuid).isEmpty = false := by
      cases hf : users.filter fun x => x.is_active with
      | nil => exact absurd hf h
      | cons a l => rfl
    simp [clientsOf, this]

/-- Witness for C7 at concrete states: an empty mirror yields exactly
the placeholder, and a one-row mirror yields exactly its uuid. -/
theorem c7_placeholder_witness :
    workerGenerateClients [] "d" = ["d"] ∧
    workerGenerateClients [⟨"u", "p", 0⟩] "d" = mirrorUuids [⟨"u", "p", 0⟩] :=
  ⟨(c7_placeholder [] [] "d").2.1 rfl,
   (c7_placeholder [⟨"u", "p", 0⟩] [] "d").2.2.1 (by decide)⟩

/-- C8: any request to `/api/add_user`, `/api/remove_user` or
`/api/sync` whose `secret` field differs from the configured shared
secret is answered 401 with the mirror unchanged and no restart. -/
theorem c8_auth_reject (ss : String) (sec : Option String)
    (u : Option String) (p : String) (t : Int) (m : Mirror)
    (ul : List SyncEntry) (hsec : sec ≠ some ss) :
    handle_add_user ss sec u p t m = ⟨⟨401, none, none⟩, m, 0⟩ ∧
    handle_remove_user ss sec u m = ⟨⟨401, none, none⟩, m, 0⟩ ∧
    handle_sync ss sec ul t m = ⟨⟨401, none, none⟩, m, 0⟩ := by
  refine ⟨?_, ?_, ?_⟩ <;>
    simp [handle_add_user, handle_remove_user, handle_sync, hsec]

/-- Witness for C8 at a concrete mismatching secret. -/
theorem c8_auth_reject_witness :
    handle_add_user "s" (some "x") (some "u") "p" 0 [⟨"a", "q", 0⟩] =
      ⟨⟨401, none, none⟩, [⟨"a", "q", 0⟩], 0⟩ ∧
    handle_remove_user "s" (some "x") (some "u") [⟨"a", "q", 0⟩] =
      ⟨⟨401, none, none⟩, [⟨"a", "q", 0⟩], 0⟩ ∧
    handle_sync "s" (some "x") [] 0 [⟨"a", "q", 0⟩] =
      ⟨⟨401, none, none⟩, [⟨"a", "q", 0⟩], 0⟩ :=
  c8_auth_reject "s" (some "x") (some "u") "p" 0 [⟨"a", "q", 0⟩] []
    (by decide)

theorem nodup_uuids_filter (m : Mirror) (q : WRow → Bool)
    (h : (mirrorUuids m).Nodup) : (mirrorUuids (m.filter q)).Nodup := by
  have hs : (m.filter q).Sublist m := List.filter_sublist m
  simp only [mirrorUuids] at h ⊢
  exact List.Sublist.nodup (hs.map fun r => r.user_uuid) h

theorem not_mem_uuids_filter (m : Mirror) (u : String) :
    u ∉ mirrorUuids (m.filter fun r => ¬ (r.user_uuid = u)) := by
  simp [mirrorUuids, List.mem_filter]

theorem applyWOp_nodup (m : Mirror) (op : WOp)
    (h : (mirrorUuids m).Nodup) : (mirrorUuids (applyWOp m op)).Nodup := by
  cases op with
  | add u p t =>
      have h1 := nodup_uuids_filter m (fun r => ¬ (r.user_uuid = u)) h
      have h2 := not_mem_uuids_filter m u
      simp only [mirrorUuids] at h1 h2
      simp only [applyWOp, worker_add_user, mirrorUuids, List.map_append]
      simp only [decide_not] at h1 h2 ⊢
      simp [List.nodup_append, h1, h2]
  | remove u =>
      by_cases hfind : (m.find? fun r => r.user_uuid = u).isSome
      · simpa [applyWOp, worker_remove_user, hfind] using
          nodup_uuids_filter m _ h
      · simpa [applyWOp, worker_remove_user, hfind] using h
  | sync entries t =>
      by_cases hnd : ((syncRows entries t).map fun r => r.user_uuid).Nodup
      · simp only [applyWOp, sync_replace, if_pos hnd, mirrorUuids]
        exact hnd
      · simp only [applyWOp, sync_replace, if_neg hnd]
        exact h

/-- C9: every worker-mirror operation preserves uniqueness of
`user_uuid` — starting from a mirror with pairwise-distinct uuids, any
sequence of add / remove / sync effects leaves at most one entry per
uuid. -/
theorem c9_uuid_unique (m : Mirror) (ops : List WOp)
    (h : (mirrorUuids m).Nodup) :
    (mirrorUuids (ops.foldl applyWOp m)).Nodup := by
  induction ops generalizing m with
  | nil => exact h
  | cons op rest ih => exact ih _ (applyWOp_nodup m op h)

/-- Witness for C9 on a concrete operation sequence that exercises the
upsert path twice plus a remove and a sync. -/
theorem c9_uuid_unique_witness :
    (mirrorUuids
      ([WOp.add "u" "p" 0, WOp.add "u" "q" 1, WOp.remove "v",
        WOp.sync [⟨some "u", "p"⟩, ⟨some "v", "q"⟩] 2].foldl
        applyWOp [])).Nodup :=
  c9_uuid_unique [] _ (by decide)

theorem workerGenerateClients_eq (m : Mirror) (dummy : String) :
    workerGenerateClients m dummy = clientsOf (mirrorUuids m) dummy := by
  simp [workerGenerateClients, worker_get_all_users, mirrorUuids,
    List.map_map, Function.comp_def]

theorem masterGenerateClients_eq (users : List MUser) (dummy : String) :
    masterGenerateClients users dummy =
      clientsOf ((users.filter fun x => x.is_active).map
        fun x => x.user_uuid) dummy := by
  simp [masterGenerateClients, masterGetAllUsers, List.map_map,
    Function.comp_def]

theorem clientsOf_of_ne_nil (ids : List String) (dummy : String)
    (h : ids ≠ []) : clientsOf ids dummy = ids := by
  cases ids with
  | nil => exact absurd rfl h
  | cons a l => rfl

/-- C1 counterexample: a credential that is active but already expired
at config-generation time (expiry 0, now 5) appears in the master's
generated config, because `get_all_users` filters only on
`is_active = 1` and never on `expires_at`. -/
theorem c1_active_expired_counterexample :
    credExpired 5 ⟨1, "n", "u1", "p1", none, some 0, true⟩ ∧
    (⟨1, "n", "u1", "p1", none, some 0, true⟩ : MUser).is_active = true ∧
    "u1" ∈ masterGenerateClients
      [⟨1, "n", "u1", "p1", none, some 0, true⟩] "dummy" := by
  refine ⟨by decide, rfl, ?_⟩
  rw [masterGenerateClients_eq]
  decide

/-- C1 (amended): in the master's generated config, a credential with
`active = false` never appears (assuming the uuid UNIQUE constraint and
a fresh placeholder uuid), and every non-placeholder identifier belongs
to a credential the store holds with `active = true` — but not
necessarily unexpired; on a worker, every non-placeholder identifier
belongs to an entry the mirror currently holds. -/
theorem c1_config_membership_amended (users : List MUser) (m : Mirror)
    (dummy : String)
    (hnd : (users.map fun x => x.user_uuid).Nodup)
    (hdum : dummy ∉ users.map fun x => x.user_uuid) :
    (∀ c, c ∈ users → c.is_active = false →
      c.user_uuid ∉ masterGenerateClients users dummy) ∧
    (∀ id, id ∈ masterGenerateClients users dummy → id ≠ dummy →
      ∃ c, c ∈ users ∧ c.is_active = true ∧ c.user_uuid = id) ∧
    (∀ id, id ∈ workerGenerateClients m dummy → id ≠ dummy →
      id ∈ mirrorUuids m) := by
  rw [masterGenerateClients_eq, workerGenerateClients_eq]
  refine ⟨?_, ?_, ?_⟩
  · intro c hc hact
    cases hf : (users.filter fun x => x.is_active).map
        fun x => x.user_uuid with
    | nil =>
        simp only [clientsOf, List.isEmpty_nil, if_true, List.mem_singleton]
        intro he
        exact hdum (he ▸ List.mem_map_of_mem (fun x => x.user_uuid) hc)
    | cons a l =>
        rw [clientsOf_of_ne_nil _ _ (by simp), ← hf]
        intro hmem
        obtain ⟨c', hc', he⟩ := List.mem_map.mp hmem
        have hc'u : c' ∈ users := List.mem_of_mem_filter hc'
        have hc'a : c'.is_active = true := by
          simpa using List.of_mem_filter hc'
        have : c' = c := List.inj_on_of_nodup_map hnd hc'u hc he
        rw [this] at hc'a
        rw [hc'a] at hact
        exact Bool.true_eq_false.mp hact
  · intro id hid hne
    cases hf : (users.filter fun x => x.is_active).map
        fun x => x.user_uuid with
    | nil =>
        rw [hf] at hid
        simp only [clientsOf, List.isEmpty_nil, if_true,
          List.mem_singleton] at hid
        exact absurd hid hne
    | cons a l =>
        rw [hf, clientsOf_of_ne_nil _ _ (by simp), ← hf] at hid
        obtain ⟨c, hc, he⟩ := List.mem_map.mp hid
        exact ⟨c, List.mem_of_mem_filter hc,
          by simpa using List.of_mem_filter hc, he⟩
  · intro id hid hne
    cases hm : mirrorUuids m with
    | nil =>
        rw [hm] at hid
        simp only [clientsOf, List.isEmpty_nil, if_true,
          List.mem_singleton] at hid
        exact absurd hid hne
    | cons a l =>
        rw [hm, clientsOf_of_ne_nil _ _ (by simp)] at hid
        exact hid

/-- Witness for C1 (amended): an inactive credential's uuid is absent
from a concrete master config. -/
theorem c1_config_membership_amended_witness :
    "u2" ∉ masterGenerateClients
      [⟨1, "a", "u1", "p1", none, none, true⟩,
       ⟨2, "b", "u2", "p2", none, none, false⟩] "d" :=
  (c1_config_membership_amended
      [⟨1, "a", "u1", "p1", none, none, true⟩,
       ⟨2, "b", "u2", "p2", none, none, false⟩] [] "d"
      (by decide) (by decide)).1
    ⟨2, "b", "u2", "p2", none, none, false⟩ (by decide) rfl

theorem find?_update_user (users : List MUser) (uid : Nat) (row : MUser)
    (e : Option Int)
    (hfind : users.find? (fun u => u.user_id = uid) = some row) :
    (users.map fun u =>
      if u.user_id = uid then { u with expires_at := e, is_active := true }
      else u).find? (fun u => u.user_id = uid) =
      some { row with expires_at := e, is_active := true } :=
  find?_map_update (fun u : MUser => u.user_id = uid)
    (fun u : MUser => { u with expires_at := e, is_active := true })
    (fun _ ha => ha) hfind

theorem userExpiry_update (users : List MUser) (uid : Nat) (row : MUser)
    (e : Option Int)
    (hfind : users.find? (fun u => u.user_id = uid) = some row) :
    userExpiry (users.map fun u =>
      if u.user_id = uid then { u with expires_at := e, is_active := true }
      else u) uid = e := by
  unfold userExpiry
  rw [find?_update_user users uid row e hfind]
  rfl

theorem find?_filter_append_fresh (users : List MUser) (uid : Nat)
    (fresh : MUser) (hid : fresh.user_id = uid) :
    ((users.filter fun u => ¬ (u.user_id = uid)) ++ [fresh]).find?
      (fun u => u.user_id = uid) = some fresh := by
  have h1 : (users.filter fun u => ¬ (u.user_id = uid)).find?
      (fun u => u.user_id = uid) = none :=
    find?_filterNot (fun u : MUser => u.user_id = uid) users
  rw [List.find?_append, h1]
  simp [hid]

theorem userExpiry_fresh (users : List MUser) (uid : Nat) (fresh : MUser)
    (hid : fresh.user_id = uid) :
    userExpiry ((users.filter fun u => ¬ (u.user_id = uid)) ++ [fresh])
      uid = fresh.expires_at := by
  unfold userExpiry
  rw [find?_filter_append_fresh users uid fresh hid]
  rfl

/-- C3: renewal extends from the current expiry when the credential is
not yet expired and restarts from `now` when it is already expired, in
both renewal code paths: `add_days_to_user` sets the new expiry to
`E + D` when `now < E` and to `now + D` when `E ≤ now`;
`create_subscription` on an existing unexpired credential sets it to
`E + D`, and on an expired one deletes and recreates it with expiry
`now + D` (for a positive duration). -/
theorem c3_renewal_policy (users : List MUser) (uid : Nat) (uname : String)
    (D : Nat) (now E : Int) (row : MUser) (fU fP : String)
    (hfind : users.find? (fun u => u.user_id = uid) = some row)
    (hexp : row.expires_at = some E) :
    (now < E →
      userExpiry (add_days_to_user users uid D now).1 uid =
        some (E + (D : Int)) ∧
      userExpiry (create_subscription users uid uname (some D) now fU fP).1
        uid = some (E + (D : Int))) ∧
    (E ≤ now →
      userExpiry (add_days_to_user users uid D now).1 uid =
        some (now + (D : Int)) ∧
      (0 < D →
        userExpiry
          (create_subscription users uid uname (some D) now fU fP).1 uid =
          some (now + (D : Int)))) := by
  constructor
  · intro h
    constructor
    · simp only [add_days_to_user, hfind, hexp]
      rw [if_pos h]
      exact userExpiry_update users uid row _ hfind
    · have hle : decide (E ≤ now) = false := decide_eq_false (not_le.mpr h)
      simp only [create_subscription, hfind, hexp, hle, Bool.false_eq_true,
        if_false]
      exact userExpiry_update users uid row _ hfind
  · intro h
    constructor
    · simp only [add_days_to_user, hfind, hexp]
      rw [if_neg (not_lt.mpr h)]
      exact userExpiry_update users uid row _ hfind
    · intro hD
      have hle : decide (E ≤ now) = true := decide_eq_true h
      simp only [create_subscription, hfind, hexp, hle, if_true]
      rw [userExpiry_fresh users uid
        ⟨uid, uname, fU, fP, none, pyOptExpiry now (some D), true⟩ rfl]
      simp [pyOptExpiry, Nat.pos_iff_ne_zero.mp hD]

/-- Witness for C3 at a concrete store: expiry 10, renewing by 5 days
at time 3 (unexpired) gives 15 in both paths; at time 20 (expired)
gives 25 in both paths. -/
theorem c3_renewal_policy_witness :
    userExpiry
      (add_days_to_user [⟨7, "a", "U", "P", none, some 10, true⟩] 7 5 3).1
      7 = some 15 ∧
    userExpiry
      (create_subscription [⟨7, "a", "U", "P", none, some 10, true⟩]
        7 "a" (some 5) 3 "U2" "P2").1 7 = some 15 ∧
    userExpiry
      (add_days_to_user [⟨7, "a", "U", "P", none, some 10, true⟩] 7 5 20).1
      7 = some 25 ∧
    userExpiry
      (create_subscription [⟨7, "a", "U", "P", none, some 10, true⟩]
        7 "a" (some 5) 20 "U2" "P2").1 7 = some 25 := by
  have h1 := c3_renewal_policy [⟨7, "a", "U", "P", none, some 10, true⟩]
    7 "a" 5 3 10 ⟨7, "a", "U", "P", none, some 10, true⟩ "U2" "P2" rfl rfl
  have h2 := c3_renewal_policy [⟨7, "a", "U", "P", none, some 10, true⟩]
    7 "a" 5 20 10 ⟨7, "a", "U", "P", none, some 10, true⟩ "U2" "P2" rfl rfl
  obtain ⟨ha, hb⟩ := h1.1 (by decide)
  obtain ⟨hc, hd⟩ := h2.2 (by decide)
  exact ⟨ha, hb, hc, hd (by decide)⟩

/-- C10: `create_subscription` on an existing, not-yet-expired
credential keeps its path and uuid (both in the returned pair and in
the stored row), re-activates it, treats `unlimited` as absorbing
(a `NULL` stored expiry or a `NULL` requested duration yields a `NULL`
new expiry), and with a stored expiry `E` and duration `Dd` sets
`E + Dd`, which never shortens the subscription. -/
theorem c10_renew_no_shorten (users : List MUser) (uid : Nat)
    (uname : String) (days : Option Nat) (now : Int) (fU fP : String)
    (row : MUser)
    (hfind : users.find? (fun u => u.user_id = uid) = some row)
    (hnexp : ∀ e, row.expires_at = some e → now < e) :
    (create_subscription users uid uname days now fU fP).2.1 = row.path ∧
    (create_subscription users uid uname days now fU fP).2.2 =
      row.user_uuid ∧
    ((create_subscription users uid uname days now fU fP).1.find?
        (fun u => u.user_id = uid)).map (fun u => u.is_active) =
      some true ∧
    ((create_subscription users uid uname days now fU fP).1.find?
        (fun u => u.user_id = uid)).map (fun u => u.user_uuid) =
      some row.user_uuid ∧
    ((create_subscription users uid uname days now fU fP).1.find?
        (fun u => u.user_id = uid)).map (fun u => u.path) =
      some row.path ∧
    (row.expires_at = none ∨ days = none →
      userExpiry (create_subscription users uid uname days now fU fP).1
        uid = none) ∧
    (∀ E Dd, row.expires_at = some E → days = some Dd →
      userExpiry (create_subscription users uid uname days now fU fP).1
          uid = some (E + (Dd : Int)) ∧
        E ≤ E + (Dd : Int)) := by
  have hbool : (match row.expires_at with
      | some e => decide (e ≤ now)
      | none => false) = false := by
    cases hre : row.expires_at with
    | none => rfl
    | some e => exact decide_eq_false (not_le.mpr (hnexp e hre))
  simp only [create_subscription, hfind, hbool, Bool.false_eq_true,
    if_false]
  refine ⟨trivial, trivial, ?_, ?_, ?_, ?_, ?_⟩
  · rw [find?_update_user users uid row _ hfind]; rfl
  · rw [find?_update_user users uid row _ hfind]; rfl
  · rw [find?_update_user users uid row _ hfind]; rfl
  · intro hor
    cases hor with
    | inl hre =>
        rw [userExpiry_update users uid row _ hfind, hre]
    | inr hd =>
        rw [userExpiry_update users uid row _ hfind, hd]
        cases row.expires_at <;> rfl
  · intro E Dd hre hd
    subst hd
    constructor
    · rw [userExpiry_update users uid row _ hfind, hre]
    · exact le_add_of_nonneg_right (by positivity)

/-- Witness for C10 at a concrete store. -/
theorem c10_renew_no_shorten_witness :
    (create_subscription [⟨7, "a", "U", "P", none, some 10, true⟩]
      7 "a" (some 5) 3 "U2" "P2").2.1 = "P" :=
  (c10_renew_no_shorten [⟨7, "a", "U", "P", none, some 10, true⟩]
    7 "a" (some 5) 3 "U2" "P2" ⟨7, "a", "U", "P", none, some 10, true⟩
    rfl (fun e he => by cases he; decide)).1

/-- C4: key redemption fails with NotFound on an unknown token, Revoked
on a revoked key, and AlreadyUsed on a used key, and in each of these
cases neither the `keys` nor the `users` table changes; on an unused,
unrevoked key it succeeds and returns a path. This holds in both the
multi-node revision (src/master/main.py) and the single-node revision
(src/main.py). -/
theorem c4_redeem_errors (keys : List MKey) (users : List MUser)
    (k uname fU fP : String) (uid : Nat) (now : Int) :
    (keys.find? (fun r => r.key = k) = none →
      master_activate_key keys users k uid uname now fU fP =
        ((keys, users), none, some .notFound) ∧
      main_activate_key keys users k uid uname now fU =
        ((keys, users), none, some .notFound)) ∧
    (∀ row, keys.find? (fun r => r.key = k) = some row →
      row.is_revoked = true →
      master_activate_key keys users k uid uname now fU fP =
        ((keys, users), none, some .revoked) ∧
      main_activate_key keys users k uid uname now fU =
        ((keys, users), none, some .revoked)) ∧
    (∀ row, keys.find? (fun r => r.key = k) = some row →
      row.is_revoked = false → row.is_used = true →
      master_activate_key keys users k uid uname now fU fP =
        ((keys, users), none, some .alreadyUsed) ∧
      main_activate_key keys users k uid uname now fU =
        ((keys, users), none, some .alreadyUsed)) ∧
    (∀ row, keys.find? (fun r => r.key = k) = some row →
      row.is_revoked = false → row.is_used = false →
      (∃ p, (master_activate_key keys users k uid uname now fU fP).2.1 =
          some p ∧
        (master_activate_key keys users k uid uname now fU fP).2.2 =
          none) ∧
      (∃ p, (main_activate_key keys users k uid uname now fU).2.1 =
          some p ∧
        (main_activate_key keys users k uid uname now fU).2.2 = none)) := by
  refine ⟨?_, ?_, ?_, ?_⟩
  · intro h
    constructor <;> simp [master_activate_key, main_activate_key, h]
  · intro row hfind hrev
    constructor <;> simp [master_activate_key, main_activate_key, hfind, hrev]
  · intro row hfind hrev hused
    constructor <;>
      simp [master_activate_key, main_activate_key, hfind, hrev, hused]
  · intro row hfind hrev hused
    constructor
    · simp [master_activate_key, hfind, hrev, hused]
    · cases hu : users.find? fun u => u.user_id = uid with
      | none => simp [main_activate_key, hfind, hrev, hused, hu]
      | some existing => simp [main_activate_key, hfind, hrev, hused, hu]

/-- Witness for C4 at concrete key tables (missing, revoked, used, and
fresh keys). -/
theorem c4_redeem_errors_witness :
    master_activate_key [] [] "k" 1 "n" 0 "U" "P" =
      (([], []), none, some .notFound) ∧
    master_activate_key [⟨1, "k", some 7, false, none, none, none, none,
        true⟩] [] "k" 1 "n" 0 "U" "P" =
      (([⟨1, "k", some 7, false, none, none, none, none, true⟩], []),
        none, some .revoked) ∧
    master_activate_key [⟨1, "k", some 7, true, none, none, none, none,
        false⟩] [] "k" 1 "n" 0 "U" "P" =
      (([⟨1, "k", some 7, true, none, none, none, none, false⟩], []),
        none, some .alreadyUsed) ∧
    ∃ p, (master_activate_key [⟨1, "k", some 7, false, none, none, none,
        none, false⟩] [] "k" 1 "n" 0 "U" "P").2.1 = some p :=
  ⟨((c4_redeem_errors [] [] "k" "n" "U" "P" 1 0).1 rfl).1,
   ((c4_redeem_errors [⟨1, "k", some 7, false, none, none, none, none,
      true⟩] [] "k" "n" "U" "P" 1 0).2.1 _ rfl rfl).1,
   ((c4_redeem_errors [⟨1, "k", some 7, true, none, none, none, none,
      false⟩] [] "k" "n" "U" "P" 1 0).2.2.1 _ rfl rfl rfl).1,
   (((c4_redeem_errors [⟨1, "k", some 7, false, none, none, none, none,
      false⟩] [] "k" "n" "U" "P" 1 0).2.2.2 _ rfl rfl rfl).1).imp
     fun _ h => h.1⟩

theorem find?_markKeyUsed (keys : List MKey) (k : String) (uid : Nat)
    (uname : String) (now : Int) (row : MKey)
    (hfind : keys.find? (fun r => r.key = k) = some row) :
    (markKeyUsed keys k uid uname now).find? (fun r => r.key = k) =
      some { row with is_used := true, used_by := some uid,
                      used_by_username := some uname,
                      activated_at := some now } :=
  find?_map_update (fun r : MKey => r.key = k)
    (fun r : MKey =>
      { r with is_used := true, used_by := some uid,
               used_by_username := some uname, activated_at := some now })
    (fun _ ha => ha) hfind

theorem redeemRace_lost (keys : List MKey) (k : String)
    (callers : List (Nat × String)) (now : Int) (row : MKey)
    (hfind : keys.find? (fun r => r.key = k) = some row)
    (hrev : row.is_revoked = false) (hused : row.is_used = true) :
    redeemRace keys k callers now =
      (keys, callers.map fun _ => some .alreadyUsed) := by
  induction callers with
  | nil => rfl
  | cons c rest ih =>
      have hstep : activate_key_crit keys k c.1 c.2 now =
          (keys, some .alreadyUsed) := by
        simp [activate_key_crit, hfind, hrev, hused]
      simp [redeemRace, hstep, ih]

/-- C5: K redemption calls on one unused, unrevoked key, serialized by
`db_lock`, produce exactly one winner — the first caller succeeds, the
other K−1 observe AlreadyUsed, the final key table is exactly the one
produced by the single winning update, and the key's `is_used` flag
ends up `true`. -/
theorem c5_redeem_exclusivity (keys : List MKey) (k : String)
    (c : Nat × String) (rest : List (Nat × String)) (now : Int)
    (row : MKey)
    (hfind : keys.find? (fun r => r.key = k) = some row)
    (hused : row.is_used = false) (hrev : row.is_revoked = false) :
    (redeemRace keys k (c :: rest) now).2 =
      none :: (rest.map fun _ => some KeyError.alreadyUsed) ∧
    ((redeemRace keys k (c :: rest) now).2.count none) = 1 ∧
    (redeemRace keys k (c :: rest) now).1 =
      markKeyUsed keys k c.1 c.2 now ∧
    ((redeemRace keys k (c :: rest) now).1.find?
        (fun r => r.key = k)).map (fun r => r.is_used) = some true := by
  have hstep : activate_key_crit keys k c.1 c.2 now =
      (markKeyUsed keys k c.1 c.2 now, none) := by
    simp [activate_key_crit, hfind, hrev, hused]
  have hfind1 := find?_markKeyUsed keys k c.1 c.2 now row hfind
  have hrest := redeemRace_lost (markKeyUsed keys k c.1 c.2 now) k rest now
    _ hfind1 (by simp [hrev]) rfl
  have hrace : redeemRace keys k (c :: rest) now =
      (markKeyUsed keys k c.1 c.2 now,
        none :: (rest.map fun _ => some KeyError.alreadyUsed)) := by
    simp [redeemRace, hstep, hrest]
  refine ⟨?_, ?_, ?_, ?_⟩
  · simp [hrace]
  · simp [hrace, List.count_cons, List.count_eq_zero]
  · simp [hrace]
  · simp [hrace, hfind1]

/-- Witness for C5: three concurrent callers on a fresh key — the first
wins, the other two observe AlreadyUsed. -/
theorem c5_redeem_exclusivity_witness :
    (redeemRace [⟨1, "k", some 7, false, none, none, none, none, false⟩]
      "k" [(1, "a"), (2, "b"), (3, "c")] 0).2 =
      [none, some KeyError.alreadyUsed, some KeyError.alreadyUsed] :=
  (c5_redeem_exclusivity
    [⟨1, "k", some 7, false, none, none, none, none, false⟩] "k"
    (1, "a") [(2, "b"), (3, "c")] 0
    ⟨1, "k", some 7, false, none, none, none, none, false⟩
    rfl rfl rfl).1
